import Mathlib

/-!
Verification of the constraint-based two-dimensional layout resolver in
src/system.rs (LayoutSystem::engrave and its helper functions).

The embedding mirrors the source closely:

- Cassowary solver variables are allocated from a monotone counter, so a
  variable is modelled as a natural number id.  The allocation order in
  engrave is: one variable per horizontal grid line, one per vertical grid
  line, then block tops, block bottoms, block starts, block ends, and
  finally the aligned-start edit variable.
- Adding a constraint to the solver is modelled as emitting a linear
  constraint value (left expression, relation, strength, right expression)
  over rational coefficients; machine floats of the source are modelled
  as rationals.
- Stateful solver reads (solver.get_value) that happen between phases are
  modelled as explicit oracles sigma : Var -> Rat handed to the pipeline:
  one oracle for the values at collision-detection time and one for the
  values read when the pre-justification engraved width is computed.
- Fallible operations return Except EngravingError, mirroring the
  Result/ok_or/question-mark structure of the source.
-/

namespace LayoutVerif

/-- Solver variable identifier: cassowary Variable values wrap a monotone
counter, so creation order is exactly the order of the ids. -/
abbrev Var := Nat

/-- Linear expression over solver variables: a list of coefficient-variable
terms plus a constant.  Mirrors the expression trees built with the
overloaded arithmetic operators in the source. -/
structure LinExpr where
  terms : List (ℚ × Var)
  const : ℚ
deriving Repr, DecidableEq

/-- Expression consisting of a single variable with coefficient one. -/
def exprVar (v : Var) : LinExpr := { terms := [(1, v)], const := 0 }

/-- Constant expression with no variable terms. -/
def exprConst (q : ℚ) : LinExpr := { terms := [], const := q }

/-- Evaluate a linear expression under an assignment of the variables. -/
def LinExpr.eval (σ : Var → ℚ) (e : LinExpr) : ℚ :=
  (e.terms.map (fun t => t.1 * σ t.2)).sum + e.const

/-- Constraint relation: EQ, LE or GE in the source. -/
inductive Rel where
  | eq
  | le
  | ge
deriving Repr, DecidableEq

/-- Constraint strength tier: REQUIRED, STRONG or WEAK in the source. -/
inductive Strength where
  | required
  | strong
  | weak
deriving Repr, DecidableEq

/-- Numeric rank of a strength tier, higher is stronger. -/
def Strength.rank : Strength → Nat
  | .required => 2
  | .strong => 1
  | .weak => 0

/-- One linear constraint handed to the solver by add_constraint. -/
structure LinConstraint where
  lhs : LinExpr
  rel : Rel
  strength : Strength
  rhs : LinExpr
deriving Repr, DecidableEq

/-- Decidable check that an assignment satisfies one constraint. -/
def satC (σ : Var → ℚ) (c : LinConstraint) : Bool :=
  match c.rel with
  | .eq => c.lhs.eval σ == c.rhs.eval σ
  | .le => decide (c.lhs.eval σ ≤ c.rhs.eval σ)
  | .ge => decide (c.rhs.eval σ ≤ c.lhs.eval σ)

/-- An assignment satisfies every constraint of the list whose strength is
at least the given tier.  The cassowary solver guarantees this only for
the required tier; strong and weak constraints are best-effort. -/
def satisfiesAtLeast (σ : Var → ℚ) (cs : List LinConstraint) (s : Strength) : Prop :=
  ∀ c ∈ cs, s.rank ≤ c.strength.rank → satC σ c = true

instance (σ : Var → ℚ) (cs : List LinConstraint) (s : Strength) :
    Decidable (satisfiesAtLeast σ cs s) := by
  unfold satisfiesAtLeast
  infer_instance

/-- Error kinds reported by the cassowary add_constraint call. -/
inductive AddConstraintError where
  | duplicateConstraint
  | unsatisfiableConstraint
  | internalSolverError
deriving Repr, DecidableEq

/-- Typed errors of the engrave pipeline, mirroring enum EngravingError. -/
inductive EngravingError where
  | UnknownHorizontalGridLine (index : Nat)
  | UnknownVerticalGridLine (index : Nat)
  | UnknownBlockTopPosition (index : Nat)
  | UnknownBlockBottomPosition (index : Nat)
  | UnknownBlockStartPosition (index : Nat)
  | UnknownBlockEndPosition (index : Nat)
  | AddConstraintErrorOnHorizontalGridLine (err : AddConstraintError) (index : Nat)
  | AddConstraintErrorOnVerticalGridLine (err : AddConstraintError) (index : Nat)
  | AddConstraintErrorOnBlock (err : AddConstraintError) (index : Nat)
  | DefineJustificationError
  | ApplyJustificationError
deriving Repr, DecidableEq

/-- Mirrors Option::ok_or followed by the question-mark operator. -/
def orErr : Option α → EngravingError → Except EngravingError α
  | some a, _ => .ok a
  | none, e => .error e

/-- System justification mode selector. -/
inductive SystemJustification where
  | AlignStart
  | AlignEnd
  | Centered
  | Justified
deriving Repr, DecidableEq

/-- Constraints carried by one horizontal grid line, enum
HorizontalGridLineConstraint in the source. -/
inductive HorizontalGridLineConstraint where
  | LockAboveHorizontalGridLineByDistance (gridLineBelow : Nat) (distance : ℚ)
  | FloatAboveHorizontalGridLineByDistance (gridLineBelow : Nat) (distance : ℚ)
  | LockBelowHorizontalGridLineByDistance (gridLineAbove : Nat) (distance : ℚ)
  | FloatBelowHorizontalGridLineByDistance (gridLineAbove : Nat) (distance : ℚ)
  | VerticallyCenterBetweenHorizontalGridLines (gridLineAbove gridLineBelow : Nat)
deriving Repr, DecidableEq

/-- Constraints carried by one vertical grid line, enum
VerticalGridLineConstraint in the source. -/
inductive VerticalGridLineConstraint where
  | LockBeforeVerticalGridLineByDistance (gridLineAfter : Nat) (distance : ℚ)
  | FloatBeforeVerticalGridLineByDistance (gridLineAfter : Nat) (distance : ℚ)
  | LockAfterVerticalGridLineByDistance (gridLineBefore : Nat) (distance : ℚ)
  | FloatAfterVerticalGridLineByDistance (gridLineBefore : Nat) (distance : ℚ)
deriving Repr, DecidableEq

/-- Constraints carried by one block, enum BlockConstraint in the source. -/
inductive BlockConstraint where
  | LockTopToHorizontalGridLine (gridLineAbove : Nat)
  | FloatTopAfterHorizontalGridLine (gridLineAbove : Nat)
  | FloatBottomBeforeHorizontalGridLine (gridLineBelow : Nat)
  | LockBottomToHorizontalGridLine (gridLineBelow : Nat)
  | LockStartToVerticalGridLine (gridLineBefore : Nat)
  | FloatStartAfterVerticalGridLine (gridLineBefore : Nat)
  | FloatEndBeforeVerticalGridLine (gridLineAfter : Nat)
  | LockEndToVerticalGridLine (gridLineAfter : Nat)
  | LockVerticalCenterHalfwayBetweenHorizontalGridLines (gridLineAbove gridLineBelow : Nat)
  | LockVerticalCenterToHorizontalGridLine (gridLineCenter : Nat)
  | LockHorizontalCenterHalfwayBetweenVerticalGridLines (gridLineBefore gridLineAfter : Nat)
  | LockHorizontalCenterToVerticalGridLine (gridLineCenter : Nat)
  | PushHorizontalGridLineDownToAccommodateBlockHeight (gridLineBelow : Nat)
  | PushVerticalGridLineSidewaysToAccommodateBlockWidth (gridLineAfter : Nat)
  | FloatAfterBlockByDistance (blockBefore : Nat) (distance : ℚ)
  | FloatBeforeBlockByDistance (blockAfter : Nat) (distance : ℚ)
  | FloatAboveBlockByDistance (blockBeneath : Nat) (distance : ℚ)
  | FloatBeneathBlockByDistance (blockAbove : Nat) (distance : ℚ)
  | LockStartToBlockStart (otherBlock : Nat)
  | LockEndToBlockEnd (otherBlock : Nat)
  | LockTopToBlockTop (otherBlock : Nat)
  | LockBottomToBlockBottom (otherBlock : Nat)
  | LockHorizontalCenterBetweenBlocks (blockBefore blockAfter : Nat)
  | LockVerticalCenterBetweenBlocks (blockAbove blockBeneath : Nat)
  | LockHorizontalCenterToBlockCenter (otherBlock : Nat)
  | FloatHorizontalCenterToBlockCenter (otherBlock : Nat)
  | LockVerticalCenterToBlockCenter (otherBlock : Nat)
  | LockAfterBlockByDistance (blockBefore : Nat) (distance : ℚ)
  | LockBeforeBlockByDistance (blockAfter : Nat) (distance : ℚ)
  | LockAboveBlockByDistance (blockBeneath : Nat) (distance : ℚ)
  | LockBeneathBlockByDistance (blockAbove : Nat) (distance : ℚ)
  | LockTopToBlockCenter (otherBlock : Nat)
  | LockBottomToBlockCenter (otherBlock : Nat)
deriving Repr, DecidableEq

/-- Data of one block: sizing, paddings, flags and provenance, together
with its authored constraint list.  Mirrors the Block trait accessors used
by engrave.  The provenance tag (source moment spine item) is opaque to
the resolver, so it is modelled as an optional natural number. -/
structure BlockData where
  isFixedWidth : Bool
  isFixedHeight : Bool
  fixedWidth : ℚ
  fixedHeight : ℚ
  startPadding : ℚ
  endPadding : ℚ
  topPadding : ℚ
  bottomPadding : ℚ
  descent : ℚ
  isSpacingBlock : Bool
  isCollidable : Bool
  canMoveUp : Bool
  canMoveDown : Bool
  src : Option Nat
  constraints : List BlockConstraint
deriving Repr, DecidableEq

/-- Default block used only to model the panicking direct indexing
blocks[j] of the source on indices that are always in range. -/
def dfltBlock : BlockData :=
  { isFixedWidth := false, isFixedHeight := false, fixedWidth := 0, fixedHeight := 0,
    startPadding := 0, endPadding := 0, topPadding := 0, bottomPadding := 0, descent := 0,
    isSpacingBlock := false, isCollidable := false, canMoveUp := false, canMoveDown := false,
    src := none, constraints := [] }

/-- Total lookup of a block by index, used where the source indexes
directly into the block slice with an index known to be in range. -/
def blocksGet (blocks : List BlockData) (i : Nat) : BlockData :=
  blocks.getD i dfltBlock

/-- Variable-count environment of one engrave invocation: the number of
horizontal grid lines, vertical grid lines and blocks determines the ids
of every allocated solver variable. -/
structure VarEnv where
  nh : Nat
  nv : Nat
  nb : Nat
deriving Repr, DecidableEq

/-- Id of the variable of horizontal grid line i. -/
def hVar (_ : VarEnv) (i : Nat) : Var := i

/-- Id of the variable of vertical grid line i. -/
def vVar (env : VarEnv) (i : Nat) : Var := env.nh + i

/-- Id of the top position variable of block i. -/
def topVar (env : VarEnv) (i : Nat) : Var := env.nh + env.nv + i

/-- Id of the bottom position variable of block i. -/
def bottomVar (env : VarEnv) (i : Nat) : Var := env.nh + env.nv + env.nb + i

/-- Id of the start position variable of block i. -/
def startVar (env : VarEnv) (i : Nat) : Var := env.nh + env.nv + 2 * env.nb + i

/-- Id of the end position variable of block i. -/
def endVar (env : VarEnv) (i : Nat) : Var := env.nh + env.nv + 3 * env.nb + i

/-- Id of the aligned-start edit variable, allocated after every grid-line
and block variable. -/
def alignedVar (env : VarEnv) : Var := env.nh + env.nv + 4 * env.nb

/-- Mirrors horizontal_grid_line_variables.get(i). -/
def hVarOpt (env : VarEnv) (i : Nat) : Option Var :=
  if i < env.nh then some (hVar env i) else none

/-- Mirrors vertical_grid_line_variables.get(i). -/
def vVarOpt (env : VarEnv) (i : Nat) : Option Var :=
  if i < env.nv then some (vVar env i) else none

/-- Mirrors block_top_position_variables.get(i). -/
def topVarOpt (env : VarEnv) (i : Nat) : Option Var :=
  if i < env.nb then some (topVar env i) else none

/-- Mirrors block_bottom_position_variables.get(i). -/
def bottomVarOpt (env : VarEnv) (i : Nat) : Option Var :=
  if i < env.nb then some (bottomVar env i) else none

/-- Mirrors block_start_position_variables.get(i). -/
def startVarOpt (env : VarEnv) (i : Nat) : Option Var :=
  if i < env.nb then some (startVar env i) else none

/-- Mirrors block_end_position_variables.get(i). -/
def endVarOpt (env : VarEnv) (i : Nat) : Option Var :=
  if i < env.nb then some (endVar env i) else none

/-- Emission of one horizontal grid line constraint, mirroring
add_horizontal_grid_line_constraint_to_solver.  Note that in the
LockAboveHorizontalGridLineByDistance arm the source passes the owning
index, not the referenced grid_line_below index, to the ok_or of the
second lookup; the embedding reproduces this faithfully. -/
def add_horizontal_grid_line_constraint_to_solver (index : Nat)
    (constraint : HorizontalGridLineConstraint) (env : VarEnv) :
    Except EngravingError LinConstraint :=
  match constraint with
  | .LockAboveHorizontalGridLineByDistance gridLineBelow distance => do
    let v ← orErr (hVarOpt env index) (.UnknownHorizontalGridLine index)
    let w ← orErr (hVarOpt env gridLineBelow) (.UnknownHorizontalGridLine index)
    .ok { lhs := exprVar v, rel := .eq, strength := .strong,
          rhs := { terms := [(1, w)], const := -distance } }
  | .FloatAboveHorizontalGridLineByDistance gridLineBelow distance => do
    let v ← orErr (hVarOpt env index) (.UnknownHorizontalGridLine index)
    let w ← orErr (hVarOpt env gridLineBelow) (.UnknownHorizontalGridLine gridLineBelow)
    .ok { lhs := exprVar v, rel := .le, strength := .weak,
          rhs := { terms := [(1, w)], const := -distance } }
  | .LockBelowHorizontalGridLineByDistance gridLineAbove distance => do
    let v ← orErr (hVarOpt env index) (.UnknownHorizontalGridLine index)
    let w ← orErr (hVarOpt env gridLineAbove) (.UnknownHorizontalGridLine gridLineAbove)
    .ok { lhs := exprVar v, rel := .eq, strength := .strong,
          rhs := { terms := [(1, w)], const := distance } }
  | .FloatBelowHorizontalGridLineByDistance gridLineAbove distance => do
    let v ← orErr (hVarOpt env index) (.UnknownHorizontalGridLine index)
    let w ← orErr (hVarOpt env gridLineAbove) (.UnknownHorizontalGridLine gridLineAbove)
    .ok { lhs := exprVar v, rel := .ge, strength := .weak,
          rhs := { terms := [(1, w)], const := distance } }
  | .VerticallyCenterBetweenHorizontalGridLines gridLineAbove gridLineBelow => do
    let v ← orErr (hVarOpt env index) (.UnknownHorizontalGridLine index)
    let a ← orErr (hVarOpt env gridLineAbove) (.UnknownHorizontalGridLine gridLineAbove)
    let b ← orErr (hVarOpt env gridLineBelow) (.UnknownHorizontalGridLine gridLineBelow)
    .ok { lhs := exprVar v, rel := .eq, strength := .strong,
          rhs := { terms := [(1 / 2, a), (1 / 2, b)], const := 0 } }

/-- Emission of one vertical grid line constraint, mirroring
add_vertical_grid_line_constraint_to_solver. -/
def add_vertical_grid_line_constraint_to_solver (index : Nat)
    (constraint : VerticalGridLineConstraint) (env : VarEnv) :
    Except EngravingError LinConstraint :=
  match constraint with
  | .LockBeforeVerticalGridLineByDistance gridLineAfter distance => do
    let v ← orErr (vVarOpt env index) (.UnknownVerticalGridLine index)
    let w ← orErr (vVarOpt env gridLineAfter) (.UnknownVerticalGridLine gridLineAfter)
    .ok { lhs := exprVar v, rel := .eq, strength := .strong,
          rhs := { terms := [(1, w)], const := -distance } }
  | .FloatBeforeVerticalGridLineByDistance gridLineAfter distance => do
    let v ← orErr (vVarOpt env index) (.UnknownVerticalGridLine index)
    let w ← orErr (vVarOpt env gridLineAfter) (.UnknownVerticalGridLine gridLineAfter)
    .ok { lhs := exprVar v, rel := .le, strength := .weak,
          rhs := { terms := [(1, w)], const := -distance } }
  | .LockAfterVerticalGridLineByDistance gridLineBefore distance => do
    let v ← orErr (vVarOpt env index) (.UnknownVerticalGridLine index)
    let w ← orErr (vVarOpt env gridLineBefore) (.UnknownVerticalGridLine gridLineBefore)
    .ok { lhs := exprVar v, rel := .eq, strength := .strong,
          rhs := { terms := [(1, w)], const := distance } }
  | .FloatAfterVerticalGridLineByDistance gridLineBefore distance => do
    let v ← orErr (vVarOpt env index) (.UnknownVerticalGridLine index)
    let w ← orErr (vVarOpt env gridLineBefore) (.UnknownVerticalGridLine gridLineBefore)
    .ok { lhs := exprVar v, rel := .ge, strength := .weak,
          rhs := { terms := [(1, w)], const := distance } }

/-- Emission of one block constraint, mirroring
add_block_constraint_to_solver.  Lock constraints are STRONG, Float
constraints are WEAK; the four trailing-edge grid-line constraints branch
on fixed sizing and are then rewritten onto the leading edge. -/
def add_block_constraint_to_solver (index : Nat) (block : BlockData)
    (constraint : BlockConstraint) (env : VarEnv) :
    Except EngravingError LinConstraint :=
  match constraint with
  | .LockTopToHorizontalGridLine gridLineAbove => do
    let t ← orErr (topVarOpt env index) (.UnknownBlockTopPosition index)
    let g ← orErr (hVarOpt env gridLineAbove) (.UnknownHorizontalGridLine gridLineAbove)
    .ok { lhs := exprVar t, rel := .eq, strength := .strong,
          rhs := { terms := [(1, g)], const := block.topPadding } }
  | .FloatTopAfterHorizontalGridLine gridLineAbove => do
    let t ← orErr (topVarOpt env index) (.UnknownBlockTopPosition index)
    let g ← orErr (hVarOpt env gridLineAbove) (.UnknownHorizontalGridLine gridLineAbove)
    .ok { lhs := exprVar t, rel := .ge, strength := .weak,
          rhs := { terms := [(1, g)], const := block.topPadding } }
  | .FloatBottomBeforeHorizontalGridLine gridLineBelow =>
    if block.isFixedHeight then do
      let t ← orErr (topVarOpt env index) (.UnknownBlockTopPosition index)
      let g ← orErr (hVarOpt env gridLineBelow) (.UnknownHorizontalGridLine gridLineBelow)
      .ok { lhs := exprVar t, rel := .le, strength := .weak,
            rhs := { terms := [(1, g)], const := -block.fixedHeight - block.bottomPadding } }
    else do
      let b ← orErr (bottomVarOpt env index) (.UnknownBlockBottomPosition index)
      let g ← orErr (hVarOpt env gridLineBelow) (.UnknownHorizontalGridLine gridLineBelow)
      .ok { lhs := exprVar b, rel := .le, strength := .weak,
            rhs := { terms := [(1, g)], const := -block.bottomPadding } }
  | .LockBottomToHorizontalGridLine gridLineBelow =>
    if block.isFixedHeight then do
      let t ← orErr (topVarOpt env index) (.UnknownBlockTopPosition index)
      let g ← orErr (hVarOpt env gridLineBelow) (.UnknownHorizontalGridLine gridLineBelow)
      .ok { lhs := exprVar t, rel := .eq, strength := .strong,
            rhs := { terms := [(1, g)], const := -block.fixedHeight - block.bottomPadding } }
    else do
      let b ← orErr (bottomVarOpt env index) (.UnknownBlockBottomPosition index)
      let g ← orErr (hVarOpt env gridLineBelow) (.UnknownHorizontalGridLine gridLineBelow)
      .ok { lhs := exprVar b, rel := .eq, strength := .strong,
            rhs := { terms := [(1, g)], const := -block.bottomPadding } }
  | .LockStartToVerticalGridLine gridLineBefore => do
    let s ← orErr (startVarOpt env index) (.UnknownBlockStartPosition index)
    let g ← orErr (vVarOpt env gridLineBefore) (.UnknownVerticalGridLine gridLineBefore)
    .ok { lhs := exprVar s, rel := .eq, strength := .strong,
          rhs := { terms := [(1, g)], const := block.startPadding } }
  | .FloatStartAfterVerticalGridLine gridLineBefore => do
    let s ← orErr (startVarOpt env index) (.UnknownBlockStartPosition index)
    let g ← orErr (vVarOpt env gridLineBefore) (.UnknownVerticalGridLine gridLineBefore)
    .ok { lhs := exprVar s, rel := .ge, strength := .weak,
          rhs := { terms := [(1, g)], const := block.startPadding } }
  | .FloatEndBeforeVerticalGridLine gridLineAfter =>
    if block.isFixedWidth then do
      let s ← orErr (startVarOpt env index) (.UnknownBlockStartPosition index)
      let g ← orErr (vVarOpt env gridLineAfter) (.UnknownVerticalGridLine gridLineAfter)
      .ok { lhs := exprVar s, rel := .le, strength := .weak,
            rhs := { terms := [(1, g)], const := -block.fixedWidth - block.endPadding } }
    else do
      let e ← orErr (endVarOpt env index) (.UnknownBlockEndPosition index)
      let g ← orErr (vVarOpt env gridLineAfter) (.UnknownVerticalGridLine gridLineAfter)
      .ok { lhs := exprVar e, rel := .le, strength := .weak,
            rhs := { terms := [(1, g)], const := -block.endPadding } }
  | .LockEndToVerticalGridLine gridLineAfter =>
    if block.isFixedWidth then do
      let s ← orErr (startVarOpt env index) (.UnknownBlockStartPosition index)
      let g ← orErr (vVarOpt env gridLineAfter) (.UnknownVerticalGridLine gridLineAfter)
      .ok { lhs := exprVar s, rel := .eq, strength := .strong,
            rhs := { terms := [(1, g)], const := -block.fixedWidth - block.endPadding } }
    else do
      let e ← orErr (endVarOpt env index) (.UnknownBlockEndPosition index)
      let g ← orErr (vVarOpt env gridLineAfter) (.UnknownVerticalGridLine gridLineAfter)
      .ok { lhs := exprVar e, rel := .eq, strength := .strong,
            rhs := { terms := [(1, g)], const := -block.endPadding } }
  | .LockVerticalCenterHalfwayBetweenHorizontalGridLines gridLineAbove gridLineBelow => do
    let t ← orErr (topVarOpt env index) (.UnknownBlockTopPosition index)
    let a ← orErr (hVarOpt env gridLineAbove) (.UnknownHorizontalGridLine gridLineAbove)
    let b ← orErr (hVarOpt env gridLineBelow) (.UnknownHorizontalGridLine gridLineBelow)
    .ok { lhs := exprVar t, rel := .eq, strength := .strong,
          rhs := { terms := [(1 / 2, a), (1 / 2, b)], const := -block.descent } }
  | .LockVerticalCenterToHorizontalGridLine gridLineCenter => do
    let t ← orErr (topVarOpt env index) (.UnknownBlockTopPosition index)
    let g ← orErr (hVarOpt env gridLineCenter) (.UnknownHorizontalGridLine gridLineCenter)
    .ok { lhs := exprVar t, rel := .eq, strength := .strong,
          rhs := { terms := [(1, g)], const := -block.descent } }
  | .LockHorizontalCenterHalfwayBetweenVerticalGridLines gridLineBefore gridLineAfter => do
    let s ← orErr (startVarOpt env index) (.UnknownBlockStartPosition index)
    let a ← orErr (vVarOpt env gridLineBefore) (.UnknownVerticalGridLine gridLineBefore)
    let b ← orErr (vVarOpt env gridLineAfter) (.UnknownVerticalGridLine gridLineAfter)
    .ok { lhs := exprVar s, rel := .ge, strength := .strong,
          rhs := { terms := [(1 / 2, a), (1 / 2, b)], const := -block.fixedWidth / 2 } }
  | .LockHorizontalCenterToVerticalGridLine gridLineCenter => do
    let s ← orErr (startVarOpt env index) (.UnknownBlockStartPosition index)
    let g ← orErr (vVarOpt env gridLineCenter) (.UnknownVerticalGridLine gridLineCenter)
    .ok { lhs := exprVar s, rel := .eq, strength := .strong,
          rhs := { terms := [(1, g)], const := -block.fixedWidth / 2 } }
  | .PushHorizontalGridLineDownToAccommodateBlockHeight gridLineBelow => do
    let g ← orErr (hVarOpt env gridLineBelow) (.UnknownHorizontalGridLine gridLineBelow)
    let t ← orErr (topVarOpt env index) (.UnknownBlockTopPosition index)
    .ok { lhs := exprVar g, rel := .ge, strength := .strong,
          rhs := { terms := [(1, t)], const := block.fixedHeight + block.bottomPadding } }
  | .PushVerticalGridLineSidewaysToAccommodateBlockWidth gridLineAfter => do
    let g ← orErr (vVarOpt env gridLineAfter) (.UnknownVerticalGridLine gridLineAfter)
    let s ← orErr (startVarOpt env index) (.UnknownBlockStartPosition index)
    .ok { lhs := exprVar g, rel := .ge, strength := .strong,
          rhs := { terms := [(1, s)], const := block.fixedWidth + block.endPadding } }
  | .FloatAfterBlockByDistance blockBefore distance => do
    let s ← orErr (startVarOpt env index) (.UnknownBlockStartPosition index)
    let e ← orErr (endVarOpt env blockBefore) (.UnknownBlockEndPosition blockBefore)
    .ok { lhs := exprVar s, rel := .ge, strength := .weak,
          rhs := { terms := [(1, e)], const := distance } }
  | .FloatBeforeBlockByDistance blockAfter distance => do
    let s ← orErr (startVarOpt env blockAfter) (.UnknownBlockStartPosition blockAfter)
    let e ← orErr (endVarOpt env index) (.UnknownBlockEndPosition index)
    .ok { lhs := exprVar s, rel := .ge, strength := .weak,
          rhs := { terms := [(1, e)], const := distance } }
  | .FloatAboveBlockByDistance blockBeneath distance => do
    let t ← orErr (topVarOpt env blockBeneath) (.UnknownBlockTopPosition blockBeneath)
    let b ← orErr (bottomVarOpt env index) (.UnknownBlockBottomPosition index)
    .ok { lhs := exprVar t, rel := .ge, strength := .weak,
          rhs := { terms := [(1, b)], const := distance } }
  | .FloatBeneathBlockByDistance blockAbove distance => do
    let t ← orErr (topVarOpt env index) (.UnknownBlockTopPosition index)
    let b ← orErr (bottomVarOpt env blockAbove) (.UnknownBlockBottomPosition blockAbove)
    .ok { lhs := exprVar t, rel := .ge, strength := .weak,
          rhs := { terms := [(1, b)], const := distance } }
  | .LockStartToBlockStart otherBlock => do
    let s ← orErr (startVarOpt env index) (.UnknownBlockStartPosition index)
    let o ← orErr (startVarOpt env otherBlock) (.UnknownBlockStartPosition otherBlock)
    .ok { lhs := exprVar s, rel := .eq, strength := .strong,
          rhs := { terms := [(1, o)], const := block.startPadding } }
  | .LockEndToBlockEnd otherBlock => do
    let e ← orErr (endVarOpt env index) (.UnknownBlockEndPosition index)
    let o ← orErr (endVarOpt env otherBlock) (.UnknownBlockEndPosition otherBlock)
    .ok { lhs := exprVar e, rel := .eq, strength := .strong,
          rhs := { terms := [(1, o)], const := -block.endPadding } }
  | .LockTopToBlockTop otherBlock => do
    let t ← orErr (topVarOpt env index) (.UnknownBlockTopPosition index)
    let o ← orErr (topVarOpt env otherBlock) (.UnknownBlockTopPosition otherBlock)
    .ok { lhs := exprVar t, rel := .eq, strength := .strong,
          rhs := { terms := [(1, o)], const := block.topPadding } }
  | .LockBottomToBlockBottom otherBlock => do
    let b ← orErr (bottomVarOpt env index) (.UnknownBlockBottomPosition index)
    let o ← orErr (bottomVarOpt env otherBlock) (.UnknownBlockBottomPosition otherBlock)
    .ok { lhs := exprVar b, rel := .eq, strength := .strong,
          rhs := { terms := [(1, o)], const := -block.bottomPadding } }
  | .LockHorizontalCenterBetweenBlocks blockBefore blockAfter => do
    let s ← orErr (startVarOpt env index) (.UnknownBlockStartPosition index)
    let e ← orErr (endVarOpt env blockBefore) (.UnknownBlockEndPosition blockBefore)
    let a ← orErr (startVarOpt env blockAfter) (.UnknownBlockStartPosition blockAfter)
    .ok { lhs := exprVar s, rel := .eq, strength := .strong,
          rhs := { terms := [(1 / 2, e), (1 / 2, a)], const := -block.fixedWidth / 2 } }
  | .LockVerticalCenterBetweenBlocks blockAbove blockBeneath => do
    let t ← orErr (topVarOpt env index) (.UnknownBlockTopPosition index)
    let b ← orErr (bottomVarOpt env blockAbove) (.UnknownBlockBottomPosition blockAbove)
    let u ← orErr (topVarOpt env blockBeneath) (.UnknownBlockTopPosition blockBeneath)
    .ok { lhs := exprVar t, rel := .eq, strength := .strong,
          rhs := { terms := [(1 / 2, b), (1 / 2, u)], const := -block.fixedHeight / 2 } }
  | .LockHorizontalCenterToBlockCenter otherBlock => do
    let s ← orErr (startVarOpt env index) (.UnknownBlockStartPosition index)
    let e ← orErr (endVarOpt env index) (.UnknownBlockEndPosition index)
    let os ← orErr (startVarOpt env otherBlock) (.UnknownBlockStartPosition otherBlock)
    let oe ← orErr (endVarOpt env otherBlock) (.UnknownBlockEndPosition otherBlock)
    .ok { lhs := { terms := [(1 / 2, s), (1 / 2, e)], const := 0 }, rel := .eq,
          strength := .strong,
          rhs := { terms := [(1 / 2, os), (1 / 2, oe)], const := 0 } }
  | .FloatHorizontalCenterToBlockCenter otherBlock => do
    let s ← orErr (startVarOpt env index) (.UnknownBlockStartPosition index)
    let e ← orErr (endVarOpt env index) (.UnknownBlockEndPosition index)
    let os ← orErr (startVarOpt env otherBlock) (.UnknownBlockStartPosition otherBlock)
    let oe ← orErr (endVarOpt env otherBlock) (.UnknownBlockEndPosition otherBlock)
    .ok { lhs := { terms := [(1 / 2, s), (1 / 2, e)], const := 0 }, rel := .eq,
          strength := .weak,
          rhs := { terms := [(1 / 2, os), (1 / 2, oe)], const := 0 } }
  | .LockVerticalCenterToBlockCenter otherBlock => do
    let t ← orErr (topVarOpt env index) (.UnknownBlockTopPosition index)
    let b ← orErr (bottomVarOpt env index) (.UnknownBlockBottomPosition index)
    let ot ← orErr (topVarOpt env otherBlock) (.UnknownBlockTopPosition otherBlock)
    let ob ← orErr (bottomVarOpt env otherBlock) (.UnknownBlockBottomPosition otherBlock)
    .ok { lhs := { terms := [(1 / 2, t), (1 / 2, b)], const := 0 }, rel := .eq,
          strength := .strong,
          rhs := { terms := [(1 / 2, ot), (1 / 2, ob)], const := 0 } }
  | .LockAfterBlockByDistance blockBefore distance => do
    let s ← orErr (startVarOpt env index) (.UnknownBlockStartPosition index)
    let e ← orErr (endVarOpt env blockBefore) (.UnknownBlockEndPosition blockBefore)
    .ok { lhs := exprVar s, rel := .eq, strength := .strong,
          rhs := { terms := [(1, e)], const := distance } }
  | .LockBeforeBlockByDistance blockAfter distance => do
    let e ← orErr (endVarOpt env index) (.UnknownBlockEndPosition index)
    let s ← orErr (startVarOpt env blockAfter) (.UnknownBlockStartPosition blockAfter)
    .ok { lhs := exprVar e, rel := .eq, strength := .strong,
          rhs := { terms := [(1, s)], const := -distance } }
  | .LockAboveBlockByDistance blockBeneath distance => do
    let b ← orErr (bottomVarOpt env index) (.UnknownBlockBottomPosition index)
    let t ← orErr (topVarOpt env blockBeneath) (.UnknownBlockTopPosition blockBeneath)
    .ok { lhs := exprVar b, rel := .eq, strength := .strong,
          rhs := { terms := [(1, t)], const := -distance } }
  | .LockBeneathBlockByDistance blockAbove distance => do
    let t ← orErr (topVarOpt env index) (.UnknownBlockTopPosition index)
    let b ← orErr (bottomVarOpt env blockAbove) (.UnknownBlockBottomPosition blockAbove)
    .ok { lhs := exprVar t, rel := .eq, strength := .strong,
          rhs := { terms := [(1, b)], const := distance } }
  | .LockTopToBlockCenter otherBlock => do
    let t ← orErr (topVarOpt env index) (.UnknownBlockTopPosition index)
    let ot ← orErr (topVarOpt env otherBlock) (.UnknownBlockTopPosition otherBlock)
    let ob ← orErr (bottomVarOpt env otherBlock) (.UnknownBlockBottomPosition otherBlock)
    .ok { lhs := exprVar t, rel := .eq, strength := .strong,
          rhs := { terms := [(1 / 2, ot), (1 / 2, ob)], const := 0 } }
  | .LockBottomToBlockCenter otherBlock => do
    let b ← orErr (bottomVarOpt env index) (.UnknownBlockBottomPosition index)
    let ot ← orErr (topVarOpt env otherBlock) (.UnknownBlockTopPosition otherBlock)
    let ob ← orErr (bottomVarOpt env otherBlock) (.UnknownBlockBottomPosition otherBlock)
    .ok { lhs := exprVar b, rel := .eq, strength := .strong,
          rhs := { terms := [(1 / 2, ot), (1 / 2, ob)], const := 0 } }

/-- Sequence a fallible emission over a list, stopping at the first
error; mirrors a Rust for loop over question-mark calls. -/
def mapE (f : α → Except EngravingError β) : List α → Except EngravingError (List β)
  | [] => .ok []
  | a :: l => do
    let b ← f a
    let bs ← mapE f l
    .ok (b :: bs)

/-- Origin constraints of the system: the top-edge horizontal grid line is
fixed to zero and the leading-edge vertical grid line is tied to the
aligned-start edit variable, each added only when the edge index resolves
to an allocated variable (mirrors the two if-let Some blocks in engrave). -/
def originConstraints (env : VarEnv) (topEdge leadingEdge : Nat) : List LinConstraint :=
  (match hVarOpt env topEdge with
   | some v => [{ lhs := exprVar v, rel := .eq, strength := .required, rhs := exprConst 0 }]
   | none => []) ++
  (match vVarOpt env leadingEdge with
   | some v => [{ lhs := exprVar v, rel := .eq, strength := .required,
                  rhs := exprVar (alignedVar env) }]
   | none => [])

/-- Constraints of all horizontal grid lines, in declaration order. -/
def hGridConstraintsAux (env : VarEnv) :
    Nat → List (List HorizontalGridLineConstraint) → Except EngravingError (List LinConstraint)
  | _, [] => .ok []
  | i, cs :: rest => do
    let here ← mapE (fun c => add_horizontal_grid_line_constraint_to_solver i c env) cs
    let there ← hGridConstraintsAux env (i + 1) rest
    .ok (here ++ there)

/-- Constraints of all vertical grid lines, in declaration order. -/
def vGridConstraintsAux (env : VarEnv) :
    Nat → List (List VerticalGridLineConstraint) → Except EngravingError (List LinConstraint)
  | _, [] => .ok []
  | i, cs :: rest => do
    let here ← mapE (fun c => add_vertical_grid_line_constraint_to_solver i c env) cs
    let there ← vGridConstraintsAux env (i + 1) rest
    .ok (here ++ there)

/-- Sizing constraints of one block: a STRONG width identity when the
block is fixed width and a STRONG height identity when it is fixed
height, mirroring the two sizing blocks of the engrave loop. -/
def sizingConstraints (index : Nat) (block : BlockData) (env : VarEnv) :
    Except EngravingError (List LinConstraint) := do
  let widthCs ←
    if block.isFixedWidth then do
      let e ← orErr (endVarOpt env index) (.UnknownBlockEndPosition index)
      let s ← orErr (startVarOpt env index) (.UnknownBlockStartPosition index)
      .ok [{ lhs := exprVar e, rel := .eq, strength := .strong,
             rhs := { terms := [(1, s)],
                      const := block.startPadding + block.fixedWidth + block.endPadding } }]
    else .ok ([] : List LinConstraint)
  let heightCs ←
    if block.isFixedHeight then do
      let b ← orErr (bottomVarOpt env index) (.UnknownBlockBottomPosition index)
      let t ← orErr (topVarOpt env index) (.UnknownBlockTopPosition index)
      .ok [{ lhs := exprVar b, rel := .eq, strength := .strong,
             rhs := { terms := [(1, t)],
                      const := block.topPadding + block.fixedHeight + block.bottomPadding } }]
    else .ok ([] : List LinConstraint)
  .ok (widthCs ++ heightCs)

/-- Per-block phase of engrave: spacing bookkeeping, sizing constraints,
then the authored constraints of the block, over all blocks in order.
Returns the spacing block indices, the total rhythmic spacing, and the
emitted constraints. -/
def blockPhaseAux (env : VarEnv) :
    Nat → List BlockData → Except EngravingError (List Nat × ℚ × List LinConstraint)
  | _, [] => .ok ([], 0, [])
  | i, b :: rest => do
    let sizing ← sizingConstraints i b env
    let user ← mapE (fun c => add_block_constraint_to_solver i b c env) b.constraints
    let (sp, tot, cs) ← blockPhaseAux env (i + 1) rest
    .ok ((if b.isSpacingBlock then i :: sp else sp),
         (if b.isSpacingBlock then b.fixedWidth + tot else tot),
         sizing ++ user ++ cs)

/-- One stored interval of an iset IntervalMap: a half-open coordinate
range mapped to a block index. -/
structure IntervalEntry where
  lo : ℚ
  hi : ℚ
  idx : Nat
deriving Repr, DecidableEq

/-- Indexes of all stored intervals intersecting the half-open query
range, mirroring IntervalMap::iter over a Range. -/
def queryIntervals (entries : List IntervalEntry) (lo hi : ℚ) : List Nat :=
  entries.filterMap fun en => if en.lo < hi ∧ lo < en.hi then some en.idx else none

/-- Interval-map construction of detect_colliding_blocks: every collidable
block with a positive horizontal extent is recorded in the x plane, and
additionally in the y plane when its vertical extent is positive too. -/
def buildPlaneIntervals (σ : Var → ℚ) (env : VarEnv) :
    Nat → List BlockData → List IntervalEntry × List IntervalEntry
  | _, [] => ([], [])
  | i, b :: rest =>
    let (xs, ys) := buildPlaneIntervals σ env (i + 1) rest
    if b.isCollidable then
      let startPosition := σ (startVar env i)
      let endPosition := σ (endVar env i)
      if startPosition < endPosition then
        let topPosition := σ (topVar env i)
        let bottomPosition := σ (bottomVar env i)
        (⟨startPosition, endPosition, i⟩ :: xs,
         if topPosition < bottomPosition then ⟨topPosition, bottomPosition, i⟩ :: ys else ys)
      else (xs, ys)
    else (xs, ys)

/-- Scan of one collidable block in the horizontal-first pass: query the
x plane with the solved horizontal range of the block, discard self and
same-source candidates, then confirm the candidate also lies in the
queried y-plane range of the scanned block. -/
def scanBlockH (allBlocks : List BlockData) (xs ys : List IntervalEntry)
    (σ : Var → ℚ) (env : VarEnv) (i : Nat) (b : BlockData) : List (Nat × Nat) :=
  if b.isCollidable then
    (queryIntervals xs (σ (startVar env i)) (σ (endVar env i))).filterMap fun j =>
      if j ≠ i then
        if b.src ≠ (blocksGet allBlocks j).src then
          if (queryIntervals ys (σ (topVar env i)) (σ (bottomVar env i))).contains j then
            some (i, j)
          else none
        else none
      else none
  else []

/-- Scan of one collidable block in the vertical-first pass, symmetric
to the horizontal-first scan. -/
def scanBlockV (allBlocks : List BlockData) (xs ys : List IntervalEntry)
    (σ : Var → ℚ) (env : VarEnv) (i : Nat) (b : BlockData) : List (Nat × Nat) :=
  if b.isCollidable then
    (queryIntervals ys (σ (topVar env i)) (σ (bottomVar env i))).filterMap fun j =>
      if j ≠ i then
        if b.src ≠ (blocksGet allBlocks j).src then
          if (queryIntervals xs (σ (startVar env i)) (σ (endVar env i))).contains j then
            some (i, j)
          else none
        else none
      else none
  else []

/-- Horizontal-first scan of detect_colliding_blocks_horizontally over
all blocks in order. -/
def detectHAux (allBlocks : List BlockData) (xs ys : List IntervalEntry)
    (σ : Var → ℚ) (env : VarEnv) : Nat → List BlockData → List (Nat × Nat)
  | _, [] => []
  | i, b :: rest =>
    scanBlockH allBlocks xs ys σ env i b ++ detectHAux allBlocks xs ys σ env (i + 1) rest

/-- Vertical-first scan of detect_colliding_blocks_vertically over all
blocks in order. -/
def detectVAux (allBlocks : List BlockData) (xs ys : List IntervalEntry)
    (σ : Var → ℚ) (env : VarEnv) : Nat → List BlockData → List (Nat × Nat)
  | _, [] => []
  | i, b :: rest =>
    scanBlockV allBlocks xs ys σ env i b ++ detectVAux allBlocks xs ys σ env (i + 1) rest

/-- Collision list of the horizontal-first scan. -/
def detect_colliding_blocks_horizontally (blocks : List BlockData)
    (xs ys : List IntervalEntry) (σ : Var → ℚ) (env : VarEnv) : List (Nat × Nat) :=
  detectHAux blocks xs ys σ env 0 blocks

/-- Collision list of the vertical-first scan. -/
def detect_colliding_blocks_vertically (blocks : List BlockData)
    (xs ys : List IntervalEntry) (σ : Var → ℚ) (env : VarEnv) : List (Nat × Nat) :=
  detectVAux blocks xs ys σ env 0 blocks

/-- Collision detection of detect_colliding_blocks: build both plane
indexes, then scan the denser axis first, choosing by comparing the
horizontal and vertical grid line counts. -/
def detect_colliding_blocks (blocks : List BlockData)
    (horizontalGridLinesCount verticalGridLinesCount : Nat)
    (σ : Var → ℚ) (env : VarEnv) : List (Nat × Nat) :=
  if horizontalGridLinesCount > verticalGridLinesCount then
    detect_colliding_blocks_horizontally blocks (buildPlaneIntervals σ env 0 blocks).1
      (buildPlaneIntervals σ env 0 blocks).2 σ env
  else
    detect_colliding_blocks_vertically blocks (buildPlaneIntervals σ env 0 blocks).1
      (buildPlaneIntervals σ env 0 blocks).2 σ env

/-- Vertical resolution stub of resolve_colliding_blocks_vertically: it
only logs a warning naming the two block indices and succeeds; the
embedding returns the warned pair. -/
def resolve_colliding_blocks_vertically (indexA indexB : Nat) :
    Except EngravingError (Nat × Nat) :=
  .ok (indexA, indexB)

/-- Horizontal resolution of resolve_colliding_blocks_horizontally.  The
source compares the two cassowary Variable handles of the block start
positions with the derived ordering, which is creation order of the
variables, and the embedding reproduces exactly that comparison on the
variable ids; no solver value is read. -/
def resolve_colliding_blocks_horizontally (indexA indexB : Nat)
    (blocks : List BlockData) (env : VarEnv) : Except EngravingError LinConstraint :=
  if startVar env indexA > startVar env indexB then
    add_block_constraint_to_solver indexA (blocksGet blocks indexA)
      (.LockAfterBlockByDistance indexB (1 / 4)) env
  else
    add_block_constraint_to_solver indexB (blocksGet blocks indexB)
      (.LockAfterBlockByDistance indexA (1 / 4)) env

/-- Resolution pass of resolve_colliding_blocks: pairs in which either
block may move vertically go to the vertical stub (warning only, no
constraint); every other pair produces one horizontal separation
constraint.  Returns the added constraints and the warned pairs. -/
def resolve_colliding_blocks (blocks : List BlockData)
    (collisions : List (Nat × Nat)) (env : VarEnv) :
    Except EngravingError (List LinConstraint × List (Nat × Nat)) :=
  match collisions with
  | [] => .ok ([], [])
  | (indexA, indexB) :: rest =>
    if (blocksGet blocks indexA).canMoveUp || (blocksGet blocks indexA).canMoveDown
        || (blocksGet blocks indexB).canMoveUp || (blocksGet blocks indexB).canMoveDown then do
      let w ← resolve_colliding_blocks_vertically indexA indexB
      let (cs, ws) ← resolve_colliding_blocks blocks rest env
      .ok (cs, w :: ws)
    else do
      let c ← resolve_colliding_blocks_horizontally indexA indexB blocks env
      let (cs, ws) ← resolve_colliding_blocks blocks rest env
      .ok (c :: cs, ws)

/-- Pre-justification engraved system width: the maximum solver value of
the block end position variables, or zero when there are no blocks. -/
def engravedSystemWidth (env : VarEnv) (σ : Var → ℚ) : ℚ :=
  (((List.range env.nb).map (fun i => σ (endVar env i))).max?).getD 0

/-- Justified-mode constraint emission over the spacing block indices,
mirroring the inner loop of apply_justification_to_solver including its
if-let Some lookup of each block. -/
def applyJustifiedAux (blocks : List BlockData) (env : VarEnv) (r : ℚ) :
    List Nat → Except EngravingError (List LinConstraint)
  | [] => .ok []
  | index :: rest =>
    match blocks[index]? with
    | some block => do
      let e ← orErr (endVarOpt env index) (.UnknownBlockEndPosition index)
      let s ← orErr (startVarOpt env index) (.UnknownBlockStartPosition index)
      let cs ← applyJustifiedAux blocks env r rest
      .ok ({ lhs := exprVar e, rel := .eq, strength := .required,
             rhs := { terms := [(1, s)], const := block.fixedWidth * r } } :: cs)
    | none => applyJustifiedAux blocks env r rest

/-- Justification of apply_justification_to_solver.  Start, end and
center alignment re-suggest the aligned-start edit variable; justified
mode adds one REQUIRED width equality per spacing block, scaled by the
padding ratio, and suggests nothing.  Returns added constraints and
suggested values. -/
def apply_justification_to_solver (justification : SystemJustification)
    (targetSystemWidth engravedSystemWidthValue totalRhythmicSpacing : ℚ)
    (env : VarEnv) (blocks : List BlockData) (spacingBlocks : List Nat) :
    Except EngravingError (List LinConstraint × List (Var × ℚ)) :=
  match justification with
  | .AlignStart => .ok ([], [(alignedVar env, 0)])
  | .AlignEnd =>
    .ok ([], [(alignedVar env, targetSystemWidth - engravedSystemWidthValue)])
  | .Centered =>
    .ok ([], [(alignedVar env, (targetSystemWidth - engravedSystemWidthValue) / 2)])
  | .Justified =>
    if spacingBlocks.isEmpty then .ok ([], [])
    else do
      let r := (totalRhythmicSpacing + targetSystemWidth - engravedSystemWidthValue)
        / totalRhythmicSpacing
      let cs ← applyJustifiedAux blocks env r spacingBlocks
      .ok (cs, [])

/-- Full layout description handed to engrave: grid lines are reduced to
their constraint lists, which is all engrave reads from them. -/
structure LayoutSystem where
  justification : SystemJustification
  targetSystemWidth : ℚ
  horizontalGridLines : List (List HorizontalGridLineConstraint)
  verticalGridLines : List (List VerticalGridLineConstraint)
  topEdge : Nat
  leadingEdge : Nat
  blocks : List BlockData
deriving Repr, DecidableEq

/-- Variable environment of one engrave invocation of a layout system. -/
def LayoutSystem.env (sys : LayoutSystem) : VarEnv :=
  { nh := sys.horizontalGridLines.length,
    nv := sys.verticalGridLines.length,
    nb := sys.blocks.length }

/-- Observable outcome of the constraint phase of engrave: every
constraint given to the solver in order, every suggested edit value in
order, the detected collision list, the unresolved-collision warnings and
the pre-justification engraved width. -/
structure EngraveOutcome where
  constraints : List LinConstraint
  suggestions : List (Var × ℚ)
  collisions : List (Nat × Nat)
  warnings : List (Nat × Nat)
  engravedWidth : ℚ
deriving Repr, DecidableEq

/-- Constraint pipeline of LayoutSystem::engrave.  The solver itself is
abstracted by the two oracles: sigmaDetect gives the solver values read
during collision detection and sigmaWidth the values read when the
pre-justification engraved width is computed. -/
def engrave (sys : LayoutSystem) (sigmaDetect sigmaWidth : Var → ℚ) :
    Except EngravingError EngraveOutcome := do
  let hcs ← hGridConstraintsAux sys.env 0 sys.horizontalGridLines
  let vcs ← vGridConstraintsAux sys.env 0 sys.verticalGridLines
  let (spacingBlocks, totalRhythmicSpacing, blockCs) ← blockPhaseAux sys.env 0 sys.blocks
  let (resolutionCs, warnings) ← resolve_colliding_blocks sys.blocks
    (detect_colliding_blocks sys.blocks sys.horizontalGridLines.length
      sys.verticalGridLines.length sigmaDetect sys.env) sys.env
  let (justificationCs, justificationSuggestions) ← apply_justification_to_solver
    sys.justification sys.targetSystemWidth (engravedSystemWidth sys.env sigmaWidth)
    totalRhythmicSpacing sys.env sys.blocks spacingBlocks
  .ok { constraints := originConstraints sys.env sys.topEdge sys.leadingEdge ++
          hcs ++ vcs ++ blockCs ++ resolutionCs ++ justificationCs,
        suggestions := (alignedVar sys.env, 0) :: justificationSuggestions,
        collisions := detect_colliding_blocks sys.blocks sys.horizontalGridLines.length
          sys.verticalGridLines.length sigmaDetect sys.env,
        warnings := warnings,
        engravedWidth := engravedSystemWidth sys.env sigmaWidth }

deriving instance DecidableEq for Except

attribute [local semireducible] Rat.add Rat.sub Rat.mul Rat.inv Rat.ofScientific

/-! Basic evaluation lemmas. -/

@[simp]
theorem eval_exprVar (σ : Var → ℚ) (v : Var) : (exprVar v).eval σ = σ v := by
  simp [exprVar, LinExpr.eval]

@[simp]
theorem eval_singleTerm (σ : Var → ℚ) (w : Var) (k : ℚ) :
    (LinExpr.mk [(1, w)] k).eval σ = σ w + k := by
  simp [LinExpr.eval]

/-! Concrete inputs exercising the collision resolver.  Two collidable
blocks with distinct provenance overlap on both axes; block zero has the
later solved start position (5 versus 0). -/

/-- Collidable block with a given provenance tag and no other features. -/
def collidableBlock (s : Nat) : BlockData :=
  { dfltBlock with isCollidable := true, src := some s }

/-- Two overlapping collidable blocks with distinct provenance. -/
def blocksC1 : List BlockData := [collidableBlock 0, collidableBlock 1]

/-- Environment of the two-block system without grid lines. -/
def envC1 : VarEnv := ⟨0, 0, 2⟩

/-- Solved values at detection time: block 0 occupies x in [5, 7) and
y in [0, 2); block 1 occupies x in [0, 6) and y in [0, 2). -/
def sigmaC1 : Var → ℚ := fun v =>
  if v = 4 then 5 else if v = 5 then 0 else
  if v = 6 then 7 else if v = 7 then 6 else
  if v = 2 then 2 else if v = 3 then 2 else 0

/-- Separation constraint the resolver emits on the two-block system:
block 1 is locked to begin a quarter unit after the end of block 0. -/
def cC1 : LinConstraint :=
  { lhs := exprVar 5, rel := .eq, strength := .strong,
    rhs := { terms := [(1, 6)], const := 1 / 4 } }

/-- Claim C1: the resolver is claimed to determine which of the two
solved start positions is later and constrain that block.  The code
instead compares the cassowary Variable handles of the start positions,
which orders by variable creation (block index), never reading solver
values.  On this input block 0 has the later solved start (5 against 0),
yet both detected orderings of the colliding pair produce the STRONG
quarter-unit separation constraint on block 1: the lhs of each emitted
constraint is the start variable of block 1, not of block 0. -/
theorem c1_resolver_ignores_solved_start_positions :
    detect_colliding_blocks blocksC1 0 0 sigmaC1 envC1 = [(0, 1), (1, 0)] ∧
    resolve_colliding_blocks blocksC1 [(0, 1), (1, 0)] envC1 = .ok ([cC1, cC1], []) ∧
    sigmaC1 (startVar envC1 0) > sigmaC1 (startVar envC1 1) ∧
    cC1.lhs = exprVar (startVar envC1 1) ∧
    cC1.lhs ≠ exprVar (startVar envC1 0) := by
  refine ⟨by decide, by decide, by decide, by decide, by decide⟩

/-- System with a single horizontal grid line whose constraint references
the absent grid line index 5. -/
def sysC4 : LayoutSystem :=
  { justification := .AlignStart, targetSystemWidth := 0,
    horizontalGridLines := [[.LockAboveHorizontalGridLineByDistance 5 1]],
    verticalGridLines := [], topEdge := 0, leadingEdge := 0, blocks := [] }

/-- Claim C4: a constraint referencing an absent index is claimed to
abort engrave with a typed error carrying the absent index.  Engrave does
abort with a typed UnknownHorizontalGridLine error and produces no
output, but in the LockAboveHorizontalGridLineByDistance arm the error
carries the owning grid line index (0, which is present) instead of the
absent referenced index (5): the ok_or of the second lookup names index
rather than grid_line_below. -/
theorem c4_absent_index_error_carries_wrong_index :
    add_horizontal_grid_line_constraint_to_solver 0
      (.LockAboveHorizontalGridLineByDistance 5 1) ⟨1, 0, 0⟩ =
      .error (.UnknownHorizontalGridLine 0) ∧
    engrave sysC4 (fun _ => 0) (fun _ => 0) = .error (.UnknownHorizontalGridLine 0) ∧
    (EngravingError.UnknownHorizontalGridLine 0 ≠ EngravingError.UnknownHorizontalGridLine 5) ∧
    ¬ 5 < sysC4.horizontalGridLines.length := by
  refine ⟨by decide, by decide, by decide, by decide⟩

/-- System whose top-edge and leading-edge indices are both out of range
of the (empty) grid line arrays, with one unconstrained block. -/
def sysC10 : LayoutSystem :=
  { justification := .AlignStart, targetSystemWidth := 0,
    horizontalGridLines := [], verticalGridLines := [],
    topEdge := 3, leadingEdge := 7, blocks := [dfltBlock] }

/-- Expected outcome of engraving sysC10: no constraints at all, only the
two aligned-start suggestions, and no error. -/
def oC10 : EngraveOutcome :=
  { constraints := [], suggestions := [(4, 0), (4, 0)],
    collisions := [], warnings := [], engravedWidth := 0 }

/-- Claim C10: when the top-edge origin index is out of range of the
horizontal grid line array and the leading-edge origin index is out of
range of the vertical grid line array, the two origin-fixing constraints
are silently not added and engrave proceeds without error: the general
part shows both origin constraints are dropped, and the concrete run
shows engrave succeeding on a system with out-of-range edges. -/
theorem c10_out_of_range_origin_is_silently_skipped :
    (∀ (env : VarEnv) (t l : Nat), env.nh ≤ t → env.nv ≤ l →
      originConstraints env t l = []) ∧
    engrave sysC10 (fun _ => 0) (fun _ => 0) = .ok oC10 := by
  constructor
  · intro env t l ht hl
    unfold originConstraints hVarOpt vVarOpt
    rw [if_neg (by omega), if_neg (by omega)]
    rfl
  · decide

/-- Witness for claim C10: the general part applied at a concrete
environment with both edges out of range. -/
theorem c10_witness :
    originConstraints ⟨2, 3, 0⟩ 2 3 = [] :=
  c10_out_of_range_origin_is_silently_skipped.1 ⟨2, 3, 0⟩ 2 3 (by decide) (by decide)

/-- Block constraint kinds whose natural target is the trailing edge of
the owning block on the width axis: applied to a variable-width block,
the emitted constraint binds the end position variable of the block. -/
def widthTrailingTarget : BlockConstraint → Bool
  | .FloatEndBeforeVerticalGridLine _ => true
  | .LockEndToVerticalGridLine _ => true
  | .LockEndToBlockEnd _ => true
  | .LockBeforeBlockByDistance _ _ => true
  | _ => false

/-- Block constraint kinds whose natural target is the trailing edge of
the owning block on the height axis: applied to a variable-height block,
the emitted constraint binds the bottom position variable of the block. -/
def heightTrailingTarget : BlockConstraint → Bool
  | .FloatBottomBeforeHorizontalGridLine _ => true
  | .LockBottomToHorizontalGridLine _ => true
  | .LockBottomToBlockBottom _ => true
  | .LockAboveBlockByDistance _ _ => true
  | .LockBottomToBlockCenter _ => true
  | _ => false

/-- Statement of claim C2 as written in the specification: for every
block that is fixed-size in an axis, any constraint naturally targeting
its trailing edge in that axis is instead applied to the leading-edge
variable. -/
def c2Claim : Prop :=
  ∀ (env : VarEnv) (i : Nat) (b : BlockData) (c : BlockConstraint) (cst : LinConstraint),
    add_block_constraint_to_solver i b c env = .ok cst →
    (widthTrailingTarget c = true → b.isFixedWidth = true →
      cst.lhs = exprVar (startVar env i)) ∧
    (heightTrailingTarget c = true → b.isFixedHeight = true →
      cst.lhs = exprVar (topVar env i))

/-- Fixed-width block with nonzero size and paddings. -/
def bC2 : BlockData :=
  { dfltBlock with isFixedWidth := true, fixedWidth := 2, startPadding := 1, endPadding := 1 }

/-- Counterexample for claim C2 as stated: LockEndToBlockEnd naturally
targets the trailing end edge, yet on a fixed-width block the code
applies it directly to the end position variable with no redirection to
the leading edge. -/
theorem c2_counterexample : ¬ c2Claim := by
  intro h
  have h2 := h ⟨0, 0, 2⟩ 0 bC2 (.LockEndToBlockEnd 1)
    { lhs := exprVar 6, rel := .eq, strength := .strong,
      rhs := { terms := [(1, 7)], const := -1 } } (by decide)
  exact absurd (h2.1 (by decide) (by decide)) (by decide)

/-- Claim C2 (amended): the fixed-size trailing-to-leading redirection
holds exactly for the four grid-line-relative trailing-edge constraint
kinds, with the leading-edge form offset by the fixed size plus the
trailing padding, while the variable-size form binds the trailing-edge
variable offset by the trailing padding only; block-relative trailing
edge constraints such as LockEndToBlockEnd bind the trailing-edge
variable regardless of sizing. -/
theorem c2_trailing_edge_redirect (env : VarEnv) (i : Nat) (b : BlockData) (gl o : Nat) :
    (gl < env.nv → i < env.nb →
      add_block_constraint_to_solver i b (.LockEndToVerticalGridLine gl) env =
        .ok (if b.isFixedWidth then
          { lhs := exprVar (startVar env i), rel := .eq, strength := .strong,
            rhs := { terms := [(1, vVar env gl)], const := -b.fixedWidth - b.endPadding } }
        else
          { lhs := exprVar (endVar env i), rel := .eq, strength := .strong,
            rhs := { terms := [(1, vVar env gl)], const := -b.endPadding } })) ∧
    (gl < env.nv → i < env.nb →
      add_block_constraint_to_solver i b (.FloatEndBeforeVerticalGridLine gl) env =
        .ok (if b.isFixedWidth then
          { lhs := exprVar (startVar env i), rel := .le, strength := .weak,
            rhs := { terms := [(1, vVar env gl)], const := -b.fixedWidth - b.endPadding } }
        else
          { lhs := exprVar (endVar env i), rel := .le, strength := .weak,
            rhs := { terms := [(1, vVar env gl)], const := -b.endPadding } })) ∧
    (gl < env.nh → i < env.nb →
      add_block_constraint_to_solver i b (.LockBottomToHorizontalGridLine gl) env =
        .ok (if b.isFixedHeight then
          { lhs := exprVar (topVar env i), rel := .eq, strength := .strong,
            rhs := { terms := [(1, hVar env gl)], const := -b.fixedHeight - b.bottomPadding } }
        else
          { lhs := exprVar (bottomVar env i), rel := .eq, strength := .strong,
            rhs := { terms := [(1, hVar env gl)], const := -b.bottomPadding } })) ∧
    (gl < env.nh → i < env.nb →
      add_block_constraint_to_solver i b (.FloatBottomBeforeHorizontalGridLine gl) env =
        .ok (if b.isFixedHeight then
          { lhs := exprVar (topVar env i), rel := .le, strength := .weak,
            rhs := { terms := [(1, hVar env gl)], const := -b.fixedHeight - b.bottomPadding } }
        else
          { lhs := exprVar (bottomVar env i), rel := .le, strength := .weak,
            rhs := { terms := [(1, hVar env gl)], const := -b.bottomPadding } })) ∧
    (o < env.nb → i < env.nb →
      add_block_constraint_to_solver i b (.LockEndToBlockEnd o) env =
        .ok { lhs := exprVar (endVar env i), rel := .eq, strength := .strong,
              rhs := { terms := [(1, endVar env o)], const := -b.endPadding } }) := by
  refine ⟨?_, ?_, ?_, ?_, ?_⟩ <;> intro h1 h2
  · cases hb : b.isFixedWidth <;>
      simp [add_block_constraint_to_solver, hb, startVarOpt, endVarOpt, vVarOpt,
        topVarOpt, bottomVarOpt, hVarOpt, h1, h2, orErr] <;> rfl
  · cases hb : b.isFixedWidth <;>
      simp [add_block_constraint_to_solver, hb, startVarOpt, endVarOpt, vVarOpt,
        topVarOpt, bottomVarOpt, hVarOpt, h1, h2, orErr] <;> rfl
  · cases hb : b.isFixedHeight <;>
      simp [add_block_constraint_to_solver, hb, startVarOpt, endVarOpt, vVarOpt,
        topVarOpt, bottomVarOpt, hVarOpt, h1, h2, orErr] <;> rfl
  · cases hb : b.isFixedHeight <;>
      simp [add_block_constraint_to_solver, hb, startVarOpt, endVarOpt, vVarOpt,
        topVarOpt, bottomVarOpt, hVarOpt, h1, h2, orErr] <;> rfl
  · simp [add_block_constraint_to_solver, startVarOpt, endVarOpt, vVarOpt,
      topVarOpt, bottomVarOpt, hVarOpt, h1, h2, orErr]
    rfl

/-- Witness for the amended claim C2: the redirection evaluated on a
fixed-width block locked to a vertical grid line. -/
theorem c2_trailing_edge_redirect_witness :
    add_block_constraint_to_solver 0 bC2 (.LockEndToVerticalGridLine 0) ⟨0, 1, 1⟩ =
      .ok { lhs := exprVar (startVar ⟨0, 1, 1⟩ 0), rel := .eq, strength := .strong,
            rhs := { terms := [(1, vVar ⟨0, 1, 1⟩ 0)], const := -3 } } :=
  ((c2_trailing_edge_redirect ⟨0, 1, 1⟩ 0 bC2 0 0).1 (by decide) (by decide)).trans (by decide)

/-- Justified-mode emission over in-range spacing indices: one REQUIRED
equality per index, scaling the stored fixed width by the ratio. -/
theorem applyJustifiedAux_eq (blocks : List BlockData) (env : VarEnv) (r : ℚ) :
    ∀ (sp : List Nat), (∀ i ∈ sp, i < blocks.length) → blocks.length = env.nb →
      applyJustifiedAux blocks env r sp = .ok (sp.map fun i =>
        { lhs := exprVar (endVar env i), rel := .eq, strength := .required,
          rhs := { terms := [(1, startVar env i)],
                   const := (blocksGet blocks i).fixedWidth * r } }) := by
  intro sp
  induction sp with
  | nil => intro _ _; rfl
  | cons i rest ih =>
    intro h hn
    have hi : i < blocks.length := h i (List.mem_cons_self _ _)
    have hi2 : i < env.nb := hn ▸ hi
    have hb : blocks[i]? = some blocks[i] := List.getElem?_eq_getElem hi
    have hg : blocksGet blocks i = blocks[i] := List.getD_eq_getElem blocks dfltBlock hi
    have ihr := ih (fun j hj => h j (List.mem_cons_of_mem _ hj)) hn
    simp [applyJustifiedAux, hb, endVarOpt, startVarOpt, if_pos hi2, orErr, ihr, hg]
    rfl

/-- Claim C3: under Justified justification, an empty spacing block list
makes justification a no-op adding no constraints and suggesting no
values; otherwise, with ratio equal to
(total spacing + target width - engraved width) / total spacing, every
spacing block receives exactly one REQUIRED equality forcing its end to
equal its start plus its original fixed width times the ratio, and no
value is suggested. -/
theorem c3_justified_justification (target engraved total : ℚ) (env : VarEnv)
    (blocks : List BlockData) (sp : List Nat) :
    (sp = [] →
      apply_justification_to_solver .Justified target engraved total env blocks sp =
        .ok ([], [])) ∧
    ((∀ i ∈ sp, i < blocks.length) → blocks.length = env.nb →
      apply_justification_to_solver .Justified target engraved total env blocks sp =
        .ok (sp.map fun i =>
          { lhs := exprVar (endVar env i), rel := .eq, strength := .required,
            rhs := { terms := [(1, startVar env i)],
                     const := (blocksGet blocks i).fixedWidth *
                       ((total + target - engraved) / total) } }, [])) := by
  constructor
  · intro h
    subst h
    rfl
  · intro h hn
    unfold apply_justification_to_solver
    by_cases hsp : sp.isEmpty
    · have he : sp = [] := List.isEmpty_iff.mp hsp
      subst he
      simp
    · rw [if_neg hsp]
      simp [applyJustifiedAux_eq blocks env ((total + target - engraved) / total) sp h hn]
      rfl

/-- Spacing block of fixed width ten with zero paddings. -/
def spacingBlockC3 : BlockData :=
  { dfltBlock with isFixedWidth := true, fixedWidth := 10, isSpacingBlock := true }

/-- Witness for claim C3: one spacing block of original width ten, target
width thirty, engraved width ten, total spacing ten, giving ratio three
and a single REQUIRED equality end = start + thirty. -/
theorem c3_justified_justification_witness :
    apply_justification_to_solver .Justified 30 10 10 ⟨0, 0, 1⟩ [spacingBlockC3] [0] =
      .ok ([{ lhs := exprVar 3, rel := .eq, strength := .required,
              rhs := { terms := [(1, 2)], const := 30 } }], []) :=
  ((c3_justified_justification 30 10 10 ⟨0, 0, 1⟩ [spacingBlockC3] [0]).2
    (by decide) (by decide)).trans (by decide)

@[simp]
theorem exceptBind_ok (a : α) (f : α → Except EngravingError β) :
    (Except.ok a : Except EngravingError α) >>= f = f a := rfl

@[simp]
theorem exceptBind_error (e : EngravingError) (f : α → Except EngravingError β) :
    (Except.error e : Except EngravingError α) >>= f = .error e := rfl

/-- Inversion of a successful engrave run into its stage results. -/
theorem engrave_ok_elim {sys : LayoutSystem} {σd σw : Var → ℚ} {o : EngraveOutcome}
    (h : engrave sys σd σw = .ok o) :
    ∃ hcs vcs sp tot bcs rcs ws jcs js,
      hGridConstraintsAux sys.env 0 sys.horizontalGridLines = .ok hcs ∧
      vGridConstraintsAux sys.env 0 sys.verticalGridLines = .ok vcs ∧
      blockPhaseAux sys.env 0 sys.blocks = .ok (sp, tot, bcs) ∧
      resolve_colliding_blocks sys.blocks
        (detect_colliding_blocks sys.blocks sys.horizontalGridLines.length
          sys.verticalGridLines.length σd sys.env) sys.env = .ok (rcs, ws) ∧
      apply_justification_to_solver sys.justification sys.targetSystemWidth
        (engravedSystemWidth sys.env σw) tot sys.env sys.blocks sp = .ok (jcs, js) ∧
      o.constraints = originConstraints sys.env sys.topEdge sys.leadingEdge ++
        hcs ++ vcs ++ bcs ++ rcs ++ jcs ∧
      o.suggestions = (alignedVar sys.env, 0) :: js ∧
      o.engravedWidth = engravedSystemWidth sys.env σw := by
  unfold engrave at h
  cases h1 : hGridConstraintsAux sys.env 0 sys.horizontalGridLines with
  | error e => rw [h1] at h; simp at h
  | ok hcs =>
  rw [h1] at h
  simp only [exceptBind_ok] at h
  cases h2 : vGridConstraintsAux sys.env 0 sys.verticalGridLines with
  | error e => rw [h2] at h; simp at h
  | ok vcs =>
  rw [h2] at h
  simp only [exceptBind_ok] at h
  cases h3 : blockPhaseAux sys.env 0 sys.blocks with
  | error e => rw [h3] at h; simp at h
  | ok sptotcs =>
  obtain ⟨sp, tot, bcs⟩ := sptotcs
  rw [h3] at h
  simp only [exceptBind_ok] at h
  cases h4 : resolve_colliding_blocks sys.blocks
      (detect_colliding_blocks sys.blocks sys.horizontalGridLines.length
        sys.verticalGridLines.length σd sys.env) sys.env with
  | error e => rw [h4] at h; simp at h
  | ok rcsws =>
  obtain ⟨rcs, ws⟩ := rcsws
  rw [h4] at h
  simp only [exceptBind_ok] at h
  cases h5 : apply_justification_to_solver sys.justification sys.targetSystemWidth
      (engravedSystemWidth sys.env σw) tot sys.env sys.blocks sp with
  | error e => rw [h5] at h; simp at h
  | ok jcsjs =>
  obtain ⟨jcs, js⟩ := jcsjs
  rw [h5] at h
  simp only [exceptBind_ok] at h
  injection h with h
  subst h
  exact ⟨hcs, vcs, sp, tot, bcs, rcs, ws, jcs, js, rfl, rfl, rfl, rfl, h5, rfl, rfl, rfl⟩

/-- STRONG sizing constraint of a fixed-width block: end equals start
plus start padding plus fixed width plus end padding. -/
def widthSizing (i : Nat) (b : BlockData) (env : VarEnv) : LinConstraint :=
  { lhs := exprVar (endVar env i), rel := .eq, strength := .strong,
    rhs := { terms := [(1, startVar env i)],
             const := b.startPadding + b.fixedWidth + b.endPadding } }

/-- When the sizing phase of a fixed-width block succeeds, the emitted
list contains the STRONG width sizing constraint. -/
theorem sizingConstraints_ok_mem {i : Nat} {b : BlockData} {env : VarEnv}
    {cs : List LinConstraint} (h : sizingConstraints i b env = .ok cs)
    (hw : b.isFixedWidth = true) : widthSizing i b env ∈ cs := by
  unfold sizingConstraints at h
  rw [hw] at h
  simp only [if_true] at h
  by_cases hib : i < env.nb
  · rw [show endVarOpt env i = some (endVar env i) by simp [endVarOpt, hib],
        show startVarOpt env i = some (startVar env i) by simp [startVarOpt, hib]] at h
    simp only [orErr, exceptBind_ok] at h
    by_cases hfh : b.isFixedHeight = true
    · rw [if_pos hfh] at h
      rw [show bottomVarOpt env i = some (bottomVar env i) by simp [bottomVarOpt, hib],
          show topVarOpt env i = some (topVar env i) by simp [topVarOpt, hib]] at h
      simp only [orErr, exceptBind_ok] at h
      injection h with h
      rw [← h]
      exact List.mem_append_left _ (List.mem_cons_self _ _)
    · rw [if_neg hfh] at h
      injection h with h
      rw [← h]
      exact List.mem_append_left _ (List.mem_cons_self _ _)
  · rw [show endVarOpt env i = none by simp [endVarOpt, hib]] at h
    simp [orErr] at h

/-- Every fixed-width block in range contributes its STRONG width sizing
constraint to a successful block phase. -/
theorem blockPhaseAux_mem_widthSizing {env : VarEnv} :
    ∀ (l : List BlockData) (i : Nat) (sp : List Nat) (tot : ℚ) (cs : List LinConstraint),
      blockPhaseAux env i l = .ok (sp, tot, cs) →
      ∀ (k : Nat) (b : BlockData), l[k]? = some b → b.isFixedWidth = true →
        widthSizing (i + k) b env ∈ cs := by
  intro l
  induction l with
  | nil => intro i sp tot cs _ k b hk; simp at hk
  | cons b0 rest ih =>
    intro i sp tot cs h k b hk hw
    unfold blockPhaseAux at h
    cases h1 : sizingConstraints i b0 env with
    | error e => rw [h1] at h; simp at h
    | ok s0 =>
    rw [h1] at h
    simp only [exceptBind_ok] at h
    cases h2 : mapE (fun c => add_block_constraint_to_solver i b0 c env) b0.constraints with
    | error e => rw [h2] at h; simp at h
    | ok u0 =>
    rw [h2] at h
    simp only [exceptBind_ok] at h
    cases h3 : blockPhaseAux env (i + 1) rest with
    | error e => rw [h3] at h; simp at h
    | ok rec0 =>
    obtain ⟨sp1, tot1, cs1⟩ := rec0
    rw [h3] at h
    simp only [exceptBind_ok] at h
    injection h with h
    have hcs : cs = s0 ++ u0 ++ cs1 := by
      have := congrArg (fun t : List Nat × ℚ × List LinConstraint => t.2.2) h
      simpa using this.symm
    subst hcs
    cases k with
    | zero =>
      obtain rfl : b0 = b := by simpa using hk
      exact List.mem_append_left _ (List.mem_append_left _ (sizingConstraints_ok_mem h1 hw))
    | succ k2 =>
      have hk2 : rest[k2]? = some b := by simpa using hk
      have hmem := ih (i + 1) sp1 tot1 cs1 h3 k2 b hk2 hw
      have harith : i + 1 + k2 = i + (k2 + 1) := by omega
      rw [harith] at hmem
      exact List.mem_append_right _ hmem

/-- Statement of claim C5 as written in the specification: in any
resolved output, which the solver guarantees to satisfy the REQUIRED
constraints, every fixed-width block has end minus start equal to start
padding plus fixed width plus end padding, regardless of authored
constraints and of the selected justification mode. -/
def c5Claim : Prop :=
  ∀ (sys : LayoutSystem) (σd σw : Var → ℚ) (o : EngraveOutcome) (τ : Var → ℚ),
    engrave sys σd σw = .ok o →
    satisfiesAtLeast τ o.constraints .required →
    ∀ (i : Nat) (b : BlockData), sys.blocks[i]? = some b → b.isFixedWidth = true →
      τ (endVar sys.env i) - τ (startVar sys.env i) =
        b.startPadding + b.fixedWidth + b.endPadding

/-- Spacing block of fixed width ten and zero paddings. -/
def spacingBlockC5 : BlockData :=
  { dfltBlock with isFixedWidth := true, fixedWidth := 10, isSpacingBlock := true }

/-- Justified system with one spacing block, target width thirty. -/
def sysC5 : LayoutSystem :=
  { justification := .Justified, targetSystemWidth := 30,
    horizontalGridLines := [], verticalGridLines := [],
    topEdge := 0, leadingEdge := 0, blocks := [spacingBlockC5] }

/-- Solver values before justification: the single block ends at ten. -/
def sigmaC5w : Var → ℚ := fun v => if v = 3 then 10 else 0

/-- Final assignment satisfying every REQUIRED constraint of the run:
the spacing block starts at zero and ends at thirty. -/
def tauC5 : Var → ℚ := fun v => if v = 3 then 30 else 0

/-- Outcome of engraving sysC5: the STRONG sizing constraint and the
REQUIRED justification override with ratio three. -/
def oC5 : EngraveOutcome :=
  { constraints :=
      [{ lhs := exprVar 3, rel := .eq, strength := .strong,
         rhs := { terms := [(1, 2)], const := 10 } },
       { lhs := exprVar 3, rel := .eq, strength := .required,
         rhs := { terms := [(1, 2)], const := 30 } }],
    suggestions := [(4, 0)], collisions := [], warnings := [], engravedWidth := 10 }

/-- Counterexample for claim C5 as stated: under Justified justification
the spacing block receives a REQUIRED override forcing end minus start
to thirty, while its sizing relation is only STRONG, so a resolved
output satisfying the REQUIRED tier has end minus start equal to thirty
rather than the fixed width ten. -/
theorem c5_counterexample : ¬ c5Claim := by
  intro h
  have h2 := h sysC5 (fun _ => 0) sigmaC5w oC5 tauC5 (by decide) (by decide)
    0 spacingBlockC5 (by decide) (by decide)
  exact absurd h2 (by decide)

/-- Claim C5 (amended): for every fixed-width block, engrave gives the
solver the STRONG constraint end = start + start padding + fixed width +
end padding, and the invariant holds in every assignment that satisfies
the emitted constraints of STRONG tier and above; under Justified
justification a REQUIRED spacing-block override may contradict it, and
the solver only guarantees the REQUIRED tier, so the invariant is not
guaranteed for spacing blocks under Justified justification. -/
theorem c5_fixed_width_invariant (sys : LayoutSystem) (σd σw : Var → ℚ)
    (o : EngraveOutcome) (τ : Var → ℚ) (i : Nat) (b : BlockData)
    (h : engrave sys σd σw = .ok o)
    (hsat : satisfiesAtLeast τ o.constraints .strong)
    (hb : sys.blocks[i]? = some b) (hw : b.isFixedWidth = true) :
    τ (endVar sys.env i) = τ (startVar sys.env i) +
      (b.startPadding + b.fixedWidth + b.endPadding) := by
  obtain ⟨hcs, vcs, sp, tot, bcs, rcs, ws, jcs, js, _, _, h3, _, _, hc, _, _⟩ :=
    engrave_ok_elim h
  have hmem : widthSizing i b sys.env ∈ bcs := by
    have := blockPhaseAux_mem_widthSizing sys.blocks 0 sp tot bcs h3 i b hb hw
    simpa using this
  have hmem2 : widthSizing i b sys.env ∈ o.constraints := by
    rw [hc]
    simp only [List.mem_append]
    tauto
  have hs := hsat _ hmem2 (by simp [widthSizing, Strength.rank])
  simp only [satC, widthSizing] at hs
  rw [beq_iff_eq] at hs
  simpa using hs

/-- Single fixed-width block with paddings one, two and three used to
witness the amended fixed-width invariant. -/
def blockC5w : BlockData :=
  { dfltBlock with
    isFixedWidth := true, fixedWidth := 2, startPadding := 1, endPadding := 3 }

/-- Start-aligned system holding only the witness block. -/
def sysC5w : LayoutSystem :=
  { justification := .AlignStart, targetSystemWidth := 0,
    horizontalGridLines := [], verticalGridLines := [],
    topEdge := 0, leadingEdge := 0, blocks := [blockC5w] }

/-- Expected outcome of engraving sysC5w. -/
def oC5w : EngraveOutcome :=
  { constraints :=
      [{ lhs := exprVar 3, rel := .eq, strength := .strong,
         rhs := { terms := [(1, 2)], const := 6 } }],
    suggestions := [(4, 0), (4, 0)], collisions := [], warnings := [], engravedWidth := 0 }

/-- Assignment satisfying the sizing constraint of sysC5w. -/
def tauC5w : Var → ℚ := fun v => if v = 3 then 6 else 0

/-- Witness for the amended claim C5: the invariant evaluated on a
concrete start-aligned system whose only block is fixed width. -/
theorem c5_fixed_width_invariant_witness :
    tauC5w (endVar sysC5w.env 0) = tauC5w (startVar sysC5w.env 0) +
      (blockC5w.startPadding + blockC5w.fixedWidth + blockC5w.endPadding) :=
  c5_fixed_width_invariant sysC5w (fun _ => 0) (fun _ => 0) oC5w tauC5w 0 blockC5w
    (by decide) (by decide) (by decide) (by decide)

/-- Claim C9: for every successful engrave run, the engraved width equals
the maximum pre-justification solved block end position, zero when there
are no blocks; under end alignment the aligned-start unknown is
resuggested to target width minus engraved width, and under centered
alignment to half that difference. -/
theorem c9_alignment_resuggestions (sys : LayoutSystem) (σd σw : Var → ℚ)
    (o : EngraveOutcome) (h : engrave sys σd σw = .ok o) :
    o.engravedWidth =
      (((List.range sys.env.nb).map (fun i => σw (endVar sys.env i))).max?).getD 0 ∧
    (sys.blocks = [] → o.engravedWidth = 0) ∧
    (sys.justification = .AlignEnd →
      o.suggestions = [(alignedVar sys.env, 0),
        (alignedVar sys.env, sys.targetSystemWidth - o.engravedWidth)]) ∧
    (sys.justification = .Centered →
      o.suggestions = [(alignedVar sys.env, 0),
        (alignedVar sys.env, (sys.targetSystemWidth - o.engravedWidth) / 2)]) := by
  obtain ⟨hcs, vcs, sp, tot, bcs, rcs, ws, jcs, js, _, _, _, _, h5, _, hsug, hwid⟩ :=
    engrave_ok_elim h
  refine ⟨?_, ?_, ?_, ?_⟩
  · rw [hwid]
    rfl
  · intro hb
    rw [hwid]
    unfold engravedSystemWidth
    simp [LayoutSystem.env, hb]
  · intro hj
    rw [hj] at h5
    unfold apply_justification_to_solver at h5
    injection h5 with h5
    injection h5 with h5a h5b
    rw [hsug, ← h5b, hwid]
  · intro hj
    rw [hj] at h5
    unfold apply_justification_to_solver at h5
    injection h5 with h5
    injection h5 with h5a h5b
    rw [hsug, ← h5b, hwid]

/-- End-aligned system with a single free block. -/
def sysC9 : LayoutSystem :=
  { justification := .AlignEnd, targetSystemWidth := 30,
    horizontalGridLines := [], verticalGridLines := [],
    topEdge := 0, leadingEdge := 0, blocks := [dfltBlock] }

/-- Pre-justification solver values of sysC9: the block ends at twelve. -/
def sigmaC9 : Var → ℚ := fun v => if v = 3 then 12 else 0

/-- Expected outcome of engraving sysC9: engraved width twelve and an
end-alignment resuggestion of eighteen. -/
def oC9 : EngraveOutcome :=
  { constraints := [], suggestions := [(4, 0), (4, 18)],
    collisions := [], warnings := [], engravedWidth := 12 }

/-- Witness for claim C9: the end-alignment resuggestion evaluated on a
system of natural width twelve and target width thirty. -/
theorem c9_alignment_resuggestions_witness :
    oC9.suggestions = [(4, 0), (4, 18)] :=
  (((c9_alignment_resuggestions sysC9 (fun _ => 0) sigmaC9 oC9 (by decide)).2.2.1
    (by decide)).trans (by decide))

/-- Claim C8: when every confirmed colliding pair has at least one block
permitted to move vertically, up or down, on either block, resolution
adds no constraint, records every pair as an unresolved warning, and
returns success, so engrave completes normally with no error surfaced. -/
theorem c8_vertical_pairs_warn_and_succeed (blocks : List BlockData)
    (collisions : List (Nat × Nat)) (env : VarEnv)
    (h : ∀ p ∈ collisions,
      ((blocksGet blocks p.1).canMoveUp || (blocksGet blocks p.1).canMoveDown
        || (blocksGet blocks p.2).canMoveUp || (blocksGet blocks p.2).canMoveDown) = true) :
    resolve_colliding_blocks blocks collisions env = .ok ([], collisions) := by
  induction collisions with
  | nil => rfl
  | cons p rest ih =>
    obtain ⟨a, b⟩ := p
    have hp := h (a, b) (List.mem_cons_self _ _)
    have hr := ih (fun q hq => h q (List.mem_cons_of_mem _ hq))
    unfold resolve_colliding_blocks
    rw [if_pos hp]
    simp [resolve_colliding_blocks_vertically, hr]

/-- Block allowed to move upwards to avoid a vertical collision. -/
def blockC8 : BlockData := { dfltBlock with isCollidable := true, canMoveUp := true }

/-- Witness for claim C8: one colliding pair whose first block may move
up resolves to no constraints, a warning for the pair, and success. -/
theorem c8_vertical_pairs_warn_and_succeed_witness :
    resolve_colliding_blocks [blockC8, dfltBlock] [(0, 1)] ⟨0, 0, 2⟩ =
      .ok ([], [(0, 1)]) :=
  c8_vertical_pairs_warn_and_succeed [blockC8, dfltBlock] [(0, 1)] ⟨0, 0, 2⟩ (by decide)

/-- Membership characterization of the horizontal-first per-block scan. -/
theorem mem_scanBlockH {A : List BlockData} {xs ys : List IntervalEntry} {σ : Var → ℚ}
    {env : VarEnv} {i : Nat} {b : BlockData} {a j : Nat} :
    (a, j) ∈ scanBlockH A xs ys σ env i b ↔
      (b.isCollidable = true ∧ a = i ∧
        j ∈ queryIntervals xs (σ (startVar env i)) (σ (endVar env i)) ∧ j ≠ i ∧
        b.src ≠ (blocksGet A j).src ∧
        j ∈ queryIntervals ys (σ (topVar env i)) (σ (bottomVar env i))) := by
  unfold scanBlockH
  cases hb : b.isCollidable with
  | false => simp
  | true =>
    simp only [if_true, List.mem_filterMap, true_and]
    constructor
    · rintro ⟨j2, hj2, hf⟩
      split_ifs at hf with h1 h2 h3
      injection hf with hf1
      injection hf1 with hfa hfb
      subst hfa
      subst hfb
      exact ⟨rfl, hj2, h1, h2, List.elem_iff.mp h3⟩
    · rintro ⟨rfl, hx, hne, hsrc, hy⟩
      refine ⟨j, hx, ?_⟩
      rw [if_pos hne, if_pos hsrc, if_pos (List.elem_iff.mpr hy)]

/-- Membership characterization of the vertical-first per-block scan. -/
theorem mem_scanBlockV {A : List BlockData} {xs ys : List IntervalEntry} {σ : Var → ℚ}
    {env : VarEnv} {i : Nat} {b : BlockData} {a j : Nat} :
    (a, j) ∈ scanBlockV A xs ys σ env i b ↔
      (b.isCollidable = true ∧ a = i ∧
        j ∈ queryIntervals ys (σ (topVar env i)) (σ (bottomVar env i)) ∧ j ≠ i ∧
        b.src ≠ (blocksGet A j).src ∧
        j ∈ queryIntervals xs (σ (startVar env i)) (σ (endVar env i))) := by
  unfold scanBlockV
  cases hb : b.isCollidable with
  | false => simp
  | true =>
    simp only [if_true, List.mem_filterMap, true_and]
    constructor
    · rintro ⟨j2, hj2, hf⟩
      split_ifs at hf with h1 h2 h3
      injection hf with hf1
      injection hf1 with hfa hfb
      subst hfa
      subst hfb
      exact ⟨rfl, hj2, h1, h2, List.elem_iff.mp h3⟩
    · rintro ⟨rfl, hx, hne, hsrc, hy⟩
      refine ⟨j, hx, ?_⟩
      rw [if_pos hne, if_pos hsrc, if_pos (List.elem_iff.mpr hy)]

/-- Membership in a horizontal-first scan suffix decomposes into one of
its per-block scans. -/
theorem mem_detectHAux {A : List BlockData} {xs ys : List IntervalEntry} {σ : Var → ℚ}
    {env : VarEnv} :
    ∀ (l : List BlockData) (i : Nat) (p : Nat × Nat),
      p ∈ detectHAux A xs ys σ env i l ↔
        ∃ k, ∃ hk : k < l.length, p ∈ scanBlockH A xs ys σ env (i + k) (l.get ⟨k, hk⟩) := by
  intro l
  induction l with
  | nil => intro i p; simp [detectHAux]
  | cons b rest ih =>
    intro i p
    simp only [detectHAux, List.mem_append, ih]
    constructor
    · rintro (hhead | ⟨k, hk, hm⟩)
      · exact ⟨0, by simp, hhead⟩
      · refine ⟨k + 1, by simpa using Nat.succ_lt_succ hk, ?_⟩
        rw [show i + (k + 1) = i + 1 + k by omega]
        exact hm
    · rintro ⟨k, hk, hm⟩
      cases k with
      | zero => exact Or.inl hm
      | succ k2 =>
        refine Or.inr ⟨k2, by simpa using hk, ?_⟩
        rw [show i + 1 + k2 = i + (k2 + 1) by omega]
        exact hm

/-- Membership in a vertical-first scan suffix decomposes into one of
its per-block scans. -/
theorem mem_detectVAux {A : List BlockData} {xs ys : List IntervalEntry} {σ : Var → ℚ}
    {env : VarEnv} :
    ∀ (l : List BlockData) (i : Nat) (p : Nat × Nat),
      p ∈ detectVAux A xs ys σ env i l ↔
        ∃ k, ∃ hk : k < l.length, p ∈ scanBlockV A xs ys σ env (i + k) (l.get ⟨k, hk⟩) := by
  intro l
  induction l with
  | nil => intro i p; simp [detectVAux]
  | cons b rest ih =>
    intro i p
    simp only [detectVAux, List.mem_append, ih]
    constructor
    · rintro (hhead | ⟨k, hk, hm⟩)
      · exact ⟨0, by simp, hhead⟩
      · refine ⟨k + 1, by simpa using Nat.succ_lt_succ hk, ?_⟩
        rw [show i + (k + 1) = i + 1 + k by omega]
        exact hm
    · rintro ⟨k, hk, hm⟩
      cases k with
      | zero => exact Or.inl hm
      | succ k2 =>
        refine Or.inr ⟨k2, by simpa using hk, ?_⟩
        rw [show i + 1 + k2 = i + (k2 + 1) by omega]
        exact hm

/-- The two scan orders produce the same set of colliding pairs. -/
theorem detectH_iff_detectV (blocks : List BlockData) (xs ys : List IntervalEntry)
    (σ : Var → ℚ) (env : VarEnv) (p : Nat × Nat) :
    p ∈ detect_colliding_blocks_horizontally blocks xs ys σ env ↔
      p ∈ detect_colliding_blocks_vertically blocks xs ys σ env := by
  obtain ⟨a, j⟩ := p
  unfold detect_colliding_blocks_horizontally detect_colliding_blocks_vertically
  rw [mem_detectHAux, mem_detectVAux]
  constructor
  · rintro ⟨k, hk, hm⟩
    obtain ⟨h1, h2, h3, h4, h5, h6⟩ := mem_scanBlockH.mp hm
    exact ⟨k, hk, mem_scanBlockV.mpr ⟨h1, h2, h6, h4, h5, h3⟩⟩
  · rintro ⟨k, hk, hm⟩
    obtain ⟨h1, h2, h3, h4, h5, h6⟩ := mem_scanBlockV.mp hm
    exact ⟨k, hk, mem_scanBlockH.mpr ⟨h1, h2, h6, h4, h5, h3⟩⟩

/-- Claim C7: for every input, the set of colliding pairs produced by
the horizontal-first scan equals the set produced by the vertical-first
scan, and the full detection, which picks the first-scanned axis by
comparing grid line counts, always produces the same set as the
horizontal-first scan on the built plane indexes: the axis choice never
affects the resulting set. -/
theorem c7_first_axis_choice_never_changes_result (blocks : List BlockData)
    (xs ys : List IntervalEntry) (σ : Var → ℚ) (env : VarEnv) (nh nv : Nat)
    (p : Nat × Nat) :
    (p ∈ detect_colliding_blocks_horizontally blocks xs ys σ env ↔
      p ∈ detect_colliding_blocks_vertically blocks xs ys σ env) ∧
    (p ∈ detect_colliding_blocks blocks nh nv σ env ↔
      p ∈ detect_colliding_blocks_horizontally blocks
        (buildPlaneIntervals σ env 0 blocks).1 (buildPlaneIntervals σ env 0 blocks).2
        σ env) := by
  refine ⟨detectH_iff_detectV blocks xs ys σ env p, ?_⟩
  unfold detect_colliding_blocks
  by_cases hc : nh > nv
  · rw [if_pos hc]
  · rw [if_neg hc]
    exact (detectH_iff_detectV blocks _ _ σ env p).symm

/-- Claim C6: a pair of blocks with equal provenance tags never appears
in the collision list, whichever axis is scanned first and however the
solved rectangles overlap: the detection filter discards same-source
candidates before confirming any collision. -/
theorem c6_equal_provenance_pairs_never_reported (blocks : List BlockData)
    (nh nv : Nat) (σ : Var → ℚ) (env : VarEnv) (p : Nat × Nat)
    (h : p ∈ detect_colliding_blocks blocks nh nv σ env) :
    (blocksGet blocks p.1).src ≠ (blocksGet blocks p.2).src := by
  obtain ⟨a, j⟩ := p
  unfold detect_colliding_blocks at h
  have key : ∀ (xs ys : List IntervalEntry),
      (a, j) ∈ detect_colliding_blocks_horizontally blocks xs ys σ env →
      (blocksGet blocks a).src ≠ (blocksGet blocks j).src := by
    intro xs ys hm
    unfold detect_colliding_blocks_horizontally at hm
    obtain ⟨k, hk, hs⟩ := (mem_detectHAux blocks 0 (a, j)).mp hm
    obtain ⟨_, ha, _, _, hsrc, _⟩ := mem_scanBlockH.mp hs
    have hget : blocks.get ⟨k, hk⟩ = blocksGet blocks a := by
      rw [ha]
      simp only [Nat.zero_add, blocksGet]
      rw [List.getD_eq_getElem blocks dfltBlock hk]
      simp
    rw [← hget]
    exact hsrc
  by_cases hc : nh > nv
  · rw [if_pos hc] at h
    exact key _ _ h
  · rw [if_neg hc] at h
    exact key _ _ ((detectH_iff_detectV blocks _ _ σ env (a, j)).mpr h)

/-- Witness for claim C6: the detection run on the two-block system
reports the pair of distinct-provenance blocks, and their tags differ. -/
theorem c6_equal_provenance_pairs_never_reported_witness :
    (blocksGet blocksC1 0).src ≠ (blocksGet blocksC1 1).src :=
  c6_equal_provenance_pairs_never_reported blocksC1 0 0 sigmaC1 envC1 (0, 1) (by decide)

end LayoutVerif
